import Mathlib

/-!
Verification of the py-openmath library (OpenMath 2.0 object model, XML codec
and Python-value converter framework) against its natural-language
specification.  The definitions below are a shallow embedding of the Python
sources:

* openmath/openmath.py  - the object model (15 concrete node classes),
* openmath/xml.py       - the tag registry,
* openmath/encoder.py   - encode_xml,
* openmath/decoder.py   - decode_stream / decode_xml,
* openmath/convert.py   - Converter, BasicPythonConverter, DefaultConverter.

Python conventions modelled explicitly:

* a value that may be None is an Option;
* an exception is the error side of an Except;
* Python doubles are the abstract type PFloat (a rational payload plus the
  special values inf, -inf, nan); no float arithmetic is performed by the
  library, doubles are only stored, compared with float("inf") and re-read;
* registered conversion callbacks are modelled as pure Lean functions: a
  callback receives the value and either returns a node, raises
  CannotConvertError, or raises some other exception.
-/

namespace PyOM

/-- Model of a Python float: a finite value carries its exact rational payload,
plus the three special values.  The library never computes with doubles, it
only stores them and compares them with float("inf"). -/
inductive PFloat where
  | finite (q : ℚ)
  | inf
  | ninf
  | nan
deriving DecidableEq, Repr

/-- The comparison f == float("inf") used by BasicPythonConverter.do_float:
true exactly for positive infinity (nan compares unequal to everything). -/
def PFloat.isInf : PFloat → Bool
  | .inf => true
  | _ => false

/-- Python exceptions raised by the modelled code.  CannotConvertError
(convert.py) is the distinguished rule-local error; messages are carried
verbatim where a theorem needs them and abbreviated otherwise. -/
inductive PyErr where
  | typeError (msg : String)
  | valueError (msg : String)
  | nameError (missing : String)
  | attributeError (attr : String)
  | keyError (key : String)
  | indexError
  | cannotConvert
deriving DecidableEq, Repr

/-- Reduction of the Except monad bind on a success value (used to evaluate
the do-notation in the definitions below). -/
@[simp] theorem except_bind_ok {ε α β : Type} (a : α) (f : α → Except ε β) :
    (Except.ok a : Except ε α) >>= f = f a := rfl

/-- Reduction of the Except monad bind on an error value. -/
@[simp] theorem except_bind_error {ε α β : Type} (e : ε) (f : α → Except ε β) :
    (Except.error e : Except ε α) >>= f = Except.error e := rfl

/- The OpenMath object model of openmath/openmath.py: one constructor per
concrete class.  Field order and names follow the Python constructors; id and
cdbase are the CommonAttributes / CDBaseAttribute mixins (nullable strings).
Child positions that Python types only by convention (e.g. OMError.name,
OMAttribution.pairs) are OMAny here as well, since the Python constructors
store whatever the decoder or the caller passes.  OMList / OMPairs are the
child lists (OMAttributionPairs stores (key, value) tuples). -/
mutual
inductive OMAny where
  | OMObject (omel : OMAny) (version : String) (id : Option String) (cdbase : Option String)
  | OMReference (href : String) (id : Option String)
  | OMInteger (integer : ℤ) (id : Option String)
  | OMFloat (double : PFloat) (id : Option String)
  | OMString (string : Option String) (id : Option String)
  | OMBytes (bytes : List ℕ) (id : Option String)
  | OMSymbol (name : String) (cd : String) (id : Option String) (cdbase : Option String)
  | OMVariable (name : String) (id : Option String)
  | OMForeign (obj : Option String) (encoding : Option String) (id : Option String) (cdbase : Option String)
  | OMApplication (elem : OMAny) (arguments : OMList) (id : Option String) (cdbase : Option String)
  | OMAttribution (pairs : OMAny) (obj : OMAny) (id : Option String) (cdbase : Option String)
  | OMAttributionPairs (pairs : OMPairs) (id : Option String) (cdbase : Option String)
  | OMBinding (binder : OMAny) (vars : OMAny) (obj : OMAny) (id : Option String) (cdbase : Option String)
  | OMBindVariables (vars : OMList) (id : Option String)
  | OMAttVar (pairs : OMAny) (obj : OMAny) (id : Option String)
  | OMError (name : OMAny) (params : OMList) (id : Option String) (cdbase : Option String)
deriving DecidableEq, Repr

inductive OMList where
  | nil
  | cons (hd : OMAny) (tl : OMList)
deriving DecidableEq, Repr

inductive OMPairs where
  | nil
  | cons (key : OMAny) (value : OMAny) (tl : OMPairs)
deriving DecidableEq, Repr
end

/-- str(x) applied by the Python constructors to a value that may be None:
str(None) is the string "None". -/
def optStr : Option String → String
  | none => "None"
  | some s => s

/-- OMObject.__init__ (openmath.py): the version defaults to "2.0" only when
the version argument is None; any given version is kept (coerced by str). -/
def OMObject_init (omel : OMAny) (version : Option String)
    (id : Option String) (cdbase : Option String) : OMAny :=
  .OMObject omel (version.getD "2.0") id cdbase

/-- The version field of an OMObject node (None for other variants). -/
def omobjVersion : OMAny → Option String
  | .OMObject _ v _ _ => some v
  | _ => none

/- ------------------------------------------------------------------ -/
/- XML model (the fragment of lxml.etree used by encoder.py/decoder.py) -/
/- ------------------------------------------------------------------ -/

/- An XML element: full tag (namespace in Clark notation), attributes as an
association list in the order they were set, optional text, child list.
XMLList is the child list (kept mutual so that recursion over elements is
structural). -/
mutual
inductive XMLElement where
  | mk (tag : String) (attrs : List (String × String)) (text : Option String) (children : XMLList)
deriving DecidableEq, Repr

inductive XMLList where
  | nil
  | cons (hd : XMLElement) (tl : XMLList)
deriving DecidableEq, Repr
end

def XMLElement.tag : XMLElement → String
  | .mk t _ _ _ => t

def XMLElement.attrs : XMLElement → List (String × String)
  | .mk _ a _ _ => a

def XMLElement.text : XMLElement → Option String
  | .mk _ _ t _ => t

def XMLElement.children : XMLElement → XMLList
  | .mk _ _ _ c => c

/-- elem.get(key): attribute lookup, None when absent. -/
def xmlGet (e : XMLElement) (key : String) : Option String :=
  (e.attrs.find? (fun p => p.1 = key)).map Prod.snd

/-- The OpenMath XML namespace (encoder.py / xml.py). -/
def openmath_ns : String := "http://www.openmath.org/OpenMath"

/-- Clark notation braces around the namespace; encoder.py builds tags as
"%s%s" with the namespace in braces followed by the local tag. -/
def nsBrace : String := "\x7b" ++ openmath_ns ++ "\x7d"

/-- The _om helper of encoder.py: qualify a local tag with the namespace. -/
def omTag (t : String) : String := nsBrace ++ t

/-- Keyword attributes of _make_element: a None value means the attribute is
omitted entirely (encoder.py, _make_element). -/
def mkAttrs : List (String × Option String) → List (String × String)
  | [] => []
  | (_, none) :: rest => mkAttrs rest
  | (k, some v) :: rest => (k, v) :: mkAttrs rest

/- ------------------------------------------------------------------ -/
/- encoder.py: encode_xml                                              -/
/- ------------------------------------------------------------------ -/

/- encode_xml transcribed branch by branch from encoder.py (the revision in
src/).  Several branches of that file reference attributes or names that do
not exist and therefore raise at run time; those branches are embedded as the
corresponding errors:

* OMInteger  : accesses obj.val, but OMInteger only defines .integer
               (openmath.py) - AttributeError("val");
* OMFloat    : dec is given the set literal containing obj.val, and obj.val
               is evaluated first - AttributeError("val");
* OMBytes    : calls .encode(ascii) on the bytes returned by b64encode;
               bytes has no .encode - AttributeError("encode");
* OMAttribution : encodes obj.pairs, then accesses obj.A which does not
               exist (the field is .obj) - AttributeError("A") after the
               pairs child has been encoded;
* OMBinding  : accesses obj.B (the field is .binder) before anything else -
               AttributeError("B");
* OMAttVar / OMError : the elif chain first evaluates
               isinstance(obj, OMVarVar), and the name OMVarVar is not
               defined anywhere - NameError("OMVarVar").

Evaluation order of the Python call arguments is preserved (children that are
encoded before the failing access are encoded here too, so that an error in a
child surfaces first). -/
mutual
def encode_xml : OMAny → Except PyErr XMLElement
  | .OMObject omel version id cdbase => do
      let child ← encode_xml omel
      .ok (.mk (omTag "OMOBJ")
        (mkAttrs [("version", some version), ("id", id), ("cdbase", cdbase)])
        none (.cons child .nil))
  | .OMReference href id =>
      .ok (.mk (omTag "OMR") (mkAttrs [("href", some href), ("id", id)]) none .nil)
  | .OMInteger _ _ => .error (.attributeError "val")
  | .OMFloat _ _ => .error (.attributeError "val")
  | .OMString string id =>
      .ok (.mk (omTag "OMSTR") (mkAttrs [("id", id)]) string .nil)
  | .OMBytes _ _ => .error (.attributeError "encode")
  | .OMSymbol name cd id cdbase =>
      .ok (.mk (omTag "OMS")
        (mkAttrs [("id", id), ("name", some name), ("cd", some cd), ("cdbase", cdbase)])
        none .nil)
  | .OMVariable name id =>
      .ok (.mk (omTag "OMV") (mkAttrs [("id", id), ("name", some name)]) none .nil)
  | .OMForeign obj encoding id cdbase =>
      .ok (.mk (omTag "OMFOREIGN")
        (mkAttrs [("id", id), ("cdbase", cdbase), ("encoding", encoding)]) obj .nil)
  | .OMApplication elem arguments id cdbase => do
      let children ← encodeList arguments
      let e ← encode_xml elem
      .ok (.mk (omTag "OMA") (mkAttrs [("id", id), ("cdbase", cdbase)]) none (.cons e children))
  | .OMAttribution pairs _ _ _ => do
      let _ ← encode_xml pairs
      .error (.attributeError "A")
  | .OMAttributionPairs pairs id _ => do
      let kvs ← encodePairs pairs
      .ok (.mk (omTag "OMATP") (mkAttrs [("id", id)]) none kvs)
  | .OMBinding _ _ _ _ _ => .error (.attributeError "B")
  | .OMBindVariables vars id => do
      let vs ← encodeList vars
      .ok (.mk (omTag "OMBVAR") (mkAttrs [("id", id)]) none vs)
  | .OMAttVar _ _ _ => .error (.nameError "OMVarVar")
  | .OMError _ _ _ _ => .error (.nameError "OMVarVar")

def encodeList : OMList → Except PyErr XMLList
  | .nil => .ok .nil
  | .cons hd tl => do
      let e ← encode_xml hd
      let rest ← encodeList tl
      .ok (.cons e rest)

def encodePairs : OMPairs → Except PyErr XMLList
  | .nil => .ok .nil
  | .cons k v tl => do
      let ke ← encode_xml k
      let ve ← encode_xml v
      let rest ← encodePairs tl
      .ok (.cons ke (.cons ve rest))
end

/- ------------------------------------------------------------------ -/
/- xml.py: the tag registry                                            -/
/- ------------------------------------------------------------------ -/

/-- The concrete node classes: the values of the tag registry (xml.py maps
tag names to the Python classes; the decoder then dispatches on the class
with issubclass, which on these sibling classes is an exact match), plus
OMAttVar, which has no tag of its own but is a class like any other (e.g. as
a key of the converter's class-override dictionary). -/
inductive OMClass where
  | cOMObject | cOMReference | cOMInteger | cOMFloat | cOMString | cOMBytes
  | cOMSymbol | cOMVariable | cOMForeign | cOMApplication | cOMAttribution
  | cOMAttributionPairs | cOMBinding | cOMBindVariables | cOMAttVar | cOMError
deriving DecidableEq, Repr

/-- The omtags dictionary of xml.py. -/
def omtags : List (String × OMClass) :=
  [("OMOBJ", .cOMObject), ("OMR", .cOMReference), ("OMI", .cOMInteger),
   ("OMF", .cOMFloat), ("OMSTR", .cOMString), ("OMB", .cOMBytes),
   ("OMS", .cOMSymbol), ("OMV", .cOMVariable), ("OMFOREIGN", .cOMForeign),
   ("OMA", .cOMApplication), ("OMATTR", .cOMAttribution),
   ("OMATP", .cOMAttributionPairs), ("OMBIND", .cOMBinding),
   ("OMBVAR", .cOMBindVariables), ("OME", .cOMError)]

/-- The closing-brace character (written by code point to keep braces out of
string and character literals). -/
def rbraceChar : Char := Char.ofNat 125

/-- str.split(sep) on character lists: split at every separator occurrence,
keeping empty parts. -/
def splitCharsOn (sep : Char) : List Char → List Char → List (List Char)
  | [], acc => [acc.reverse]
  | c :: rest, acc =>
      if c = sep then acc.reverse :: splitCharsOn sep rest []
      else splitCharsOn sep rest (c :: acc)

/-- str.strip() on character lists: drop leading and trailing whitespace. -/
def trimChars (cs : List Char) : List Char :=
  ((cs.dropWhile Char.isWhitespace).reverse.dropWhile Char.isWhitespace).reverse

/-- tag_to_object of xml.py (with the default ns=True): the tag must start
with the namespace in braces, then the part after the last closing brace
(tag.split of the closing brace, last component) is looked up in omtags; a
missing entry is a KeyError. -/
def tag_to_object (tag : String) : Except PyErr OMClass :=
  if ¬ nsBrace.toList.isPrefixOf tag.toList then
    .error (.valueError "Invalid namespace")
  else
    let localName : String := ⟨(splitCharsOn rbraceChar tag.toList []).getLastD []⟩
    match (omtags.find? (fun p => p.1 = localName)).map Prod.snd with
    | some c => .ok c
    | none => .error (.keyError localName)

/-- Whether a class inherits the CDBaseAttribute mixin (openmath.py):
these are the classes for which decode_xml reads a cdbase attribute. -/
def hasCDBase : OMClass → Bool
  | .cOMObject | .cOMSymbol | .cOMForeign | .cOMApplication
  | .cOMAttribution | .cOMAttributionPairs | .cOMBinding | .cOMError => true
  | _ => false

/- ------------------------------------------------------------------ -/
/- decoder.py: decode_xml and decode_stream                            -/
/- ------------------------------------------------------------------ -/

/-- One decimal digit. -/
def digitVal (c : Char) : Option ℕ :=
  if c.isDigit then some (c.toNat - 48) else none

/-- A nonempty all-digit string as a natural number. -/
def digitsToNat (cs : List Char) : Option ℕ :=
  match cs with
  | [] => none
  | _ => cs.foldl (fun acc c => do
      let a ← acc
      let d ← digitVal c
      pure (a * 10 + d)) (some 0)

/-- An optionally signed decimal integer literal (surrounding whitespace
ignored), as Python int() accepts. -/
def parsePyIntChars (cs : List Char) : Option ℤ :=
  match trimChars cs with
  | [] => Option.none
  | c :: rest =>
      let p : Bool × List Char :=
        if c = '-' then (true, rest)
        else if c = '+' then (false, rest)
        else (false, c :: rest)
      (digitsToNat p.2).map (fun n => if p.1 then -(n : ℤ) else (n : ℤ))

/-- int(text) applied by the decoder to OMI element text: int(None) is a
TypeError, a non-integer literal is a ValueError. -/
def parsePyInt : Option String → Except PyErr ℤ
  | none => .error (.typeError "int() argument must be a string")
  | some s =>
      match parsePyIntChars s.toList with
      | some n => .ok n
      | none => .error (.valueError "invalid literal for int()")

/-- float(text) applied by the decoder to the dec attribute of OMF:
float(None) is a TypeError; "inf", "Infinity", "nan" and plain decimal
literals (optional sign, digits, optional fraction) are modelled, anything
else is a ValueError (exponent notation is not needed by any theorem
below). -/
def parsePyFloat : Option String → Except PyErr PFloat
  | none => .error (.typeError "float() argument must be a string")
  | some s =>
      let t : String := ⟨trimChars s.toList⟩
      if t = "inf" ∨ t = "Infinity" then .ok .inf
      else if t = "-inf" ∨ t = "-Infinity" then .ok .ninf
      else if t = "nan" then .ok .nan
      else
        let p : Bool × List Char :=
          match t.toList with
          | c :: rest =>
              if c = '-' then (true, rest)
              else if c = '+' then (false, rest)
              else (false, c :: rest)
          | [] => (false, [])
        let q : Option ℚ :=
          match splitCharsOn '.' p.2 [] with
          | [ip] => (digitsToNat ip).map (fun n => (n : ℚ))
          | [ip, fp] => do
              let n ← digitsToNat ip
              let f ← digitsToNat fp
              pure ((n : ℚ) + (f : ℚ) / ((10 : ℚ) ^ fp.length))
          | _ => none
        match q with
        | some v => .ok (.finite (if p.1 then -v else v))
        | none => .error (.valueError "could not convert string to float")

/-- Value of one base64 alphabet character. -/
def b64charVal (c : Char) : Option ℕ :=
  if 'A' ≤ c ∧ c ≤ 'Z' then some (c.toNat - 65)
  else if 'a' ≤ c ∧ c ≤ 'z' then some (c.toNat - 97 + 26)
  else if '0' ≤ c ∧ c ≤ '9' then some (c.toNat - 48 + 52)
  else if c = '+' then some 62
  else if c = '/' then some 63
  else none

/-- Bit-accumulator loop of base64 decoding: consume 6 bits per character,
emit a byte whenever 8 bits are available. -/
def b64decodeGo : List ℕ → ℕ → ℕ → List ℕ → List ℕ
  | [], _, _, out => out.reverse
  | v :: rest, acc, nbits, out =>
      let acc := acc * 64 + v
      let nbits := nbits + 6
      if 8 ≤ nbits then
        b64decodeGo rest (acc % 2 ^ (nbits - 8)) (nbits - 8)
          (acc / 2 ^ (nbits - 8) :: out)
      else
        b64decodeGo rest acc nbits out

/-- base64.b64decode applied by the decoder to OMB element text: None text
is a TypeError (the py2 fallback re-raises it); with the default
validate=False, characters outside the base64 alphabet - including the
padding - are discarded before decoding. -/
def b64decode : Option String → Except PyErr (List ℕ)
  | none => .error (.typeError "argument should be a bytes-like object")
  | some s =>
      .ok (b64decodeGo (s.toList.filterMap b64charVal) 0 0 [])

/- decode_xml transcribed from decoder.py.  The element tag is resolved in
the tag registry, the id attribute is read for every class (all inherit
CommonAttributes) and cdbase for the classes with CDBaseAttribute, then the
code dispatches on the class.  Child elements are taken positionally
(elem[0], elem[1], elem[2], elem[1:], and for OMATP the zip of elem[::2] with
elem[1::2], which silently drops an odd trailing child); a missing positional
child is an IndexError.  Inside an OMBVAR the children are decoded with
_in_bind=True, which makes an OMATP element construct an OMAttVar instead -
but the attrs dictionary built for the OMATP class also contains the cdbase
key, which OMAttVar.__init__ does not accept, so after decoding both children
that path always fails with a TypeError (unexpected keyword argument
"cdbase"). -/
mutual
def decode_xml : XMLElement → Bool → Except PyErr OMAny
  | .mk tag attrs text children, inBind => do
    let e : XMLElement := .mk tag attrs text children
    let cls ← tag_to_object tag
    let id := xmlGet e "id"
    let cdbase := xmlGet e "cdbase"
    match cls with
    | .cOMObject =>
        let version := xmlGet e "version"
        match children with
        | .nil => .error .indexError
        | .cons c0 _ => do
            let omel ← decode_xml c0 false
            .ok (OMObject_init omel version id cdbase)
    | .cOMReference =>
        .ok (.OMReference (optStr (xmlGet e "href")) id)
    | .cOMInteger => do
        let n ← parsePyInt text
        .ok (.OMInteger n id)
    | .cOMFloat => do
        let d ← parsePyFloat (xmlGet e "dec")
        .ok (.OMFloat d id)
    | .cOMString =>
        .ok (.OMString text id)
    | .cOMBytes => do
        let bs ← b64decode text
        .ok (.OMBytes bs id)
    | .cOMSymbol =>
        .ok (.OMSymbol (optStr (xmlGet e "name")) (optStr (xmlGet e "cd")) id cdbase)
    | .cOMVariable =>
        .ok (.OMVariable (optStr (xmlGet e "name")) id)
    | .cOMForeign =>
        .ok (.OMForeign text (xmlGet e "encoding") id cdbase)
    | .cOMApplication =>
        match children with
        | .nil => .error .indexError
        | .cons c0 rest => do
            let elem ← decode_xml c0 false
            let args ← decodeChildren rest false
            .ok (.OMApplication elem args id cdbase)
    | .cOMAttribution =>
        match children with
        | .cons c0 (.cons c1 _) => do
            let pairs ← decode_xml c0 false
            let obj ← decode_xml c1 false
            .ok (.OMAttribution pairs obj id cdbase)
        | .cons c0 .nil => do
            -- elem[1] raises IndexError only after elem[0] was decoded
            let _ ← decode_xml c0 false
            .error .indexError
        | .nil => .error .indexError
    | .cOMAttributionPairs =>
        if ¬ inBind then do
          let pairs ← decodePairsChildren children
          .ok (.OMAttributionPairs pairs id cdbase)
        else
          match children with
          | .cons c0 (.cons c1 _) => do
              let _ ← decode_xml c0 true
              let _ ← decode_xml c1 true
              .error (.typeError "unexpected keyword argument cdbase")
          | .cons c0 .nil => do
              let _ ← decode_xml c0 true
              .error .indexError
          | .nil => .error .indexError
    | .cOMBinding =>
        match children with
        | .cons c0 (.cons c1 (.cons c2 _)) => do
            let binder ← decode_xml c0 false
            let vars ← decode_xml c1 false
            let obj ← decode_xml c2 false
            .ok (.OMBinding binder vars obj id cdbase)
        | .cons c0 (.cons c1 .nil) => do
            let _ ← decode_xml c0 false
            let _ ← decode_xml c1 false
            .error .indexError
        | .cons c0 .nil => do
            let _ ← decode_xml c0 false
            .error .indexError
        | .nil => .error .indexError
    | .cOMBindVariables => do
        let vars ← decodeChildren children true
        .ok (.OMBindVariables vars id)
    | .cOMError =>
        match children with
        | .nil => .error .indexError
        | .cons c0 rest => do
            let name ← decode_xml c0 false
            let params ← decodeChildren rest false
            .ok (.OMError name params id cdbase)
    | .cOMAttVar =>
        -- unreachable: OMAttVar is not a value of the tag registry, so
        -- tag_to_object never returns it
        .error (.keyError "OMAttVar")
termination_by structural e => e

def decodeChildren : XMLList → Bool → Except PyErr OMList
  | .nil, _ => .ok .nil
  | .cons hd tl, inBind => do
      let a ← decode_xml hd inBind
      let rest ← decodeChildren tl inBind
      .ok (.cons a rest)
termination_by structural l => l

def decodePairsChildren : XMLList → Except PyErr OMPairs
  | .nil => .ok .nil
  | .cons _ .nil => .ok .nil
  | .cons k (.cons v rest) => do
      let ke ← decode_xml k false
      let ve ← decode_xml v false
      let tl ← decodePairsChildren rest
      .ok (.cons ke ve tl)
termination_by structural l => l
end

/-- decode_stream of decoder.py, applied to the already-parsed root element
(stream parsing and the optional validator are outside the model): the root
must carry a version attribute equal to "2.0" (an absent or empty version is
caught by the "not v" test, any other value by the inequality), then the root
is decoded with decode_xml.  Nothing checks the root tag itself. -/
def decode_stream (root : XMLElement) : Except PyErr OMAny :=
  match xmlGet root "version" with
  | none => .error (.valueError "Only OpenMath 2.0 is supported")
  | some v =>
      if v = "" ∨ v ≠ "2.0" then .error (.valueError "Only OpenMath 2.0 is supported")
      else decode_xml root false

/- ------------------------------------------------------------------ -/
/- convert.py: the native Python value model                           -/
/- ------------------------------------------------------------------ -/

/-- The callables that occur as converter results in convert.py: the
builders registered by BasicPythonConverter for list1.list, set1.set,
complex1.complex_cartesian (the complex class itself) and
interval1.integer_interval. -/
inductive PyBuiltin where
  | listBuilder
  | setBuilder
  | complexCartesian
  | integerInterval
deriving DecidableEq, Repr

/- Model of the native Python values handled by the converter framework.
PyList is the element list of list and set values (mutual, for structural
recursion); a set carries its elements in iteration order.  The constructor
obj stands for an arbitrary application object whose only relevant feature
is whether it exposes a self-conversion hook: per the module documentation
of convert.py, an object with an __openmath__ method is converted to the
node that method returns. -/
mutual
inductive PyVal where
  | int (n : ℤ)
  | bool (b : Bool)
  | float (f : PFloat)
  | complex (re im : PFloat)
  | str (s : String)
  | bytes (b : List ℕ)
  | list (l : PyList)
  | set (s : PyList)
  | range (start stop step : ℤ)
  | builtin (f : PyBuiltin)
  | none
  | obj (hook : Option OMAny)
deriving DecidableEq, Repr

inductive PyList where
  | nil
  | cons (hd : PyVal) (tl : PyList)
deriving DecidableEq, Repr
end

/-- Convenience: embed a Lean list of values as a PyList. -/
def PyList.ofList : List PyVal → PyList
  | [] => .nil
  | x :: xs => .cons x (PyList.ofList xs)

/-- The type-guard classes that can be registered with register_to_openmath
(the Python classes used by convert.py and its callers). -/
inductive PyClass where
  | int | bool | float | complex | str | bytes | list | set | range
deriving DecidableEq, Repr

/-- isinstance(v, cls) for the modelled values and classes.  The one subtlety
convert.py itself points out: bool is a subclass of int, so
isinstance(True, int) holds. -/
def isinst : PyVal → PyClass → Bool
  | .int _, .int => true
  | .bool _, .bool => true
  | .bool _, .int => true
  | .float _, .float => true
  | .complex _ _, .complex => true
  | .str _, .str => true
  | .bytes _, .bytes => true
  | .list _, .list => true
  | .set _, .set => true
  | .range _ _ _, .range => true
  | _, _ => false

/-- The __openmath__ hook: present only on obj values that define it
(hasattr check in to_openmath).  Modelled per the documented contract as
returning a node. -/
def openmathHook : PyVal → Option OMAny
  | .obj h => h
  | _ => Option.none

/- ------------------------------------------------------------------ -/
/- convert.py: the Converter class                                     -/
/- ------------------------------------------------------------------ -/

/-- A registered Python-to-OpenMath conversion rule: register_to_openmath
accepts either an OpenMath object or a callable.  A callable is modelled as
a pure function that returns a node or raises (PyErr.cannotConvert is the
CannotConvertError used for fall-through). -/
inductive ToOMRule where
  | const (node : OMAny)
  | fn (f : PyVal → Except PyErr OMAny)

/-- An entry of the _oms_to_py dictionary.  The shape records how the entry
was registered, which fixes the arity it is invoked with on lookup:
register_to_python_name stores a zero-argument closure returning a constant
(thunk), register_to_python_cd a function of the symbol name,
register_to_python_cdbase a function of (cd, name), and a fully-wildcard
entry receives (cdbase, cd, name). -/
inductive SymRule where
  | thunk (py : PyVal)
  | byName (f : String → Except PyErr PyVal)
  | byCdName (f : String → String → Except PyErr PyVal)
  | byAll (f : Option String → String → String → Except PyErr PyVal)

/-- A conversion function registered for an OM class
(register_to_python_class). -/
def OMClassRule := OMAny → Except PyErr PyVal

/-- The concrete class of a node, for the exact-class dictionary lookup
omobj.__class__ in _omclass_to_py. -/
def classOf : OMAny → OMClass
  | .OMObject _ _ _ _ => .cOMObject
  | .OMReference _ _ => .cOMReference
  | .OMInteger _ _ => .cOMInteger
  | .OMFloat _ _ => .cOMFloat
  | .OMString _ _ => .cOMString
  | .OMBytes _ _ => .cOMBytes
  | .OMSymbol _ _ _ _ => .cOMSymbol
  | .OMVariable _ _ => .cOMVariable
  | .OMForeign _ _ _ _ => .cOMForeign
  | .OMApplication _ _ _ _ => .cOMApplication
  | .OMAttribution _ _ _ _ => .cOMAttribution
  | .OMAttributionPairs _ _ _ => .cOMAttributionPairs
  | .OMBinding _ _ _ _ _ => .cOMBinding
  | .OMBindVariables _ _ => .cOMBindVariables
  | .OMAttVar _ _ _ => .cOMAttVar
  | .OMError _ _ _ _ => .cOMError

/-- The Converter state of convert.py: the ordered native-to-OM rule list
_conv_to_om (appended to on registration, iterated newest first), the
OM-class override dictionary _omclass_to_py, and the symbol dictionary
_oms_to_py keyed by the (cdbase, cd, name) triple with None wildcards.
The two dictionaries are association lists with the first entry for a key
winning (insertAssoc below replaces, as Python dict assignment does). -/
structure Converter where
  conv_to_om : List (Option PyClass × ToOMRule)
  omclass_to_py : List (OMClass × OMClassRule)
  oms_to_py : List ((Option String × Option String × Option String) × SymRule)

/-- Converter.__init__: all three registries empty. -/
def Converter.empty : Converter := ⟨[], [], []⟩

/-- Python dict assignment d[k] = v on an association list. -/
def insertAssoc {α β : Type} [DecidableEq α] (l : List (α × β)) (k : α) (v : β) :
    List (α × β) :=
  (k, v) :: l.filter (fun p => p.1 ≠ k)

/-- Python dict lookup d.get(k). -/
def findAssoc {α β : Type} [DecidableEq α] (l : List (α × β)) (k : α) : Option β :=
  (l.find? (fun p => p.1 = k)).map Prod.snd

/-- register_to_openmath: appends the (guard, rule) pair to _conv_to_om.
The dynamic validation (py_class must be a class, converter must be callable
or an OM object) is satisfied by construction of the argument types. -/
def Converter.register_to_openmath (c : Converter) (g : Option PyClass) (r : ToOMRule) :
    Converter :=
  { c with conv_to_om := c.conv_to_om ++ [(g, r)] }

/-- register_to_python_class: dictionary assignment keyed by the class. -/
def Converter.register_to_python_class (c : Converter) (cls : OMClass) (f : OMClassRule) :
    Converter :=
  { c with omclass_to_py := insertAssoc c.omclass_to_py cls f }

/-- register_to_python_name: stores a zero-argument closure returning py at
the exact (base, cd, name) key. -/
def Converter.register_to_python_name (c : Converter) (base cd name : String) (py : PyVal) :
    Converter :=
  { c with oms_to_py := insertAssoc c.oms_to_py (some base, some cd, some name) (.thunk py) }

/-- register_to_python_cd: stores a function of the name at (base, cd, None). -/
def Converter.register_to_python_cd (c : Converter) (base cd : String)
    (f : String → Except PyErr PyVal) : Converter :=
  { c with oms_to_py := insertAssoc c.oms_to_py (some base, some cd, Option.none) (.byName f) }

/-- register_to_python_cdbase: stores a function of (cd, name) at
(base, None, None). -/
def Converter.register_to_python_cdbase (c : Converter) (base : String)
    (f : String → String → Except PyErr PyVal) : Converter :=
  { c with oms_to_py := insertAssoc c.oms_to_py (some base, Option.none, Option.none) (.byCdName f) }

/-- Invoking a stored _oms_to_py entry with zero arguments, r().  An entry
registered with a different arity would fail with a TypeError in Python; such
mixed entries cannot arise from the registration functions. -/
def applySym0 : SymRule → Except PyErr PyVal
  | .thunk py => .ok py
  | _ => .error (.typeError "missing positional arguments")

/-- Invoking a stored entry as r(name). -/
def applySym1 : SymRule → String → Except PyErr PyVal
  | .byName f, name => f name
  | _, _ => .error (.typeError "positional argument mismatch")

/-- Invoking a stored entry as r(cd, name). -/
def applySym2 : SymRule → String → String → Except PyErr PyVal
  | .byCdName f, cd, name => f cd name
  | _, _, _ => .error (.typeError "positional argument mismatch")

/-- Invoking a stored entry as r(cdbase, cd, name). -/
def applySym3 : SymRule → Option String → String → String → Except PyErr PyVal
  | .byAll f, base, cd, name => f base cd name
  | _, _, _, _ => .error (.typeError "positional argument mismatch")

/-- _lookup_to_python: try the four key shapes from most to least specific.
When nothing matches, the original code builds the error message by string
concatenation "no entry found for " + cdbase + "?" + cd + "?" + name, which
itself raises a TypeError when cdbase is None (cd and name are always
strings on an OMSymbol). -/
def Converter.lookup_to_python (c : Converter) (cdbase : Option String) (cd name : String) :
    Except PyErr PyVal :=
  match findAssoc c.oms_to_py (cdbase, some cd, some name) with
  | some r => applySym0 r
  | Option.none =>
  match findAssoc c.oms_to_py (cdbase, some cd, Option.none) with
  | some r => applySym1 r name
  | Option.none =>
  match findAssoc c.oms_to_py (cdbase, Option.none, Option.none) with
  | some r => applySym2 r cd name
  | Option.none =>
  match findAssoc c.oms_to_py (Option.none, Option.none, Option.none) with
  | some r => applySym3 r cdbase cd name
  | Option.none =>
      match cdbase with
      | Option.none => .error (.typeError "can only concatenate str to str")
      | some b => .error (.valueError ("no entry found for " ++ b ++ "?" ++ cd ++ "?" ++ name))

/-- Whether a (guard, rule) entry applies to a value:
cl is None or isinstance(obj, cl). -/
def guardMatches (g : Option PyClass) (v : PyVal) : Bool :=
  match g with
  | Option.none => true
  | some cls => isinst v cls

/-- Invoking a registered rule as conv(obj).  In this revision of the code
the call is made whether or not conv is callable; the OpenMath node classes
of openmath.py define no __call__, so calling a constant rule raises a
TypeError (object is not callable) instead of returning the constant. -/
def applyToOMRule : ToOMRule → PyVal → Except PyErr OMAny
  | .const _, _ => .error (.typeError "object is not callable")
  | .fn f, v => f v

/-- The rule loop of to_openmath, over the reversed _conv_to_om list, with
the converter state threaded explicitly (the loop body only reads the
registries; modelled callbacks are pure).  A rule raising
CannotConvertError is skipped, any other exception propagates, a result is
returned.  After the loop, an object with an __openmath__ hook is converted
through it, otherwise the conversion fails with ValueError. -/
def toOMLoopSt (v : PyVal) (c : Converter) :
    List (Option PyClass × ToOMRule) → Except PyErr OMAny × Converter
  | [] =>
      match openmathHook v with
      | some n => (.ok n, c)
      | Option.none => (.error (.valueError "Cannot convert to OpenMath."), c)
  | (g, r) :: rest =>
      if guardMatches g v then
        match applyToOMRule r v with
        | .ok n => (.ok n, c)
        | .error .cannotConvert => toOMLoopSt v c rest
        | .error e => (.error e, c)
      else toOMLoopSt v c rest

/-- to_openmath with the state returned alongside the result: the rules are
iterated from the most recently registered to the oldest
(reversed(self._conv_to_om)). -/
def Converter.to_openmathSt (c : Converter) (v : PyVal) : Except PyErr OMAny × Converter :=
  toOMLoopSt v c c.conv_to_om.reverse

/-- Converter.to_openmath (result part). -/
def Converter.to_openmath (c : Converter) (v : PyVal) : Except PyErr OMAny :=
  (c.to_openmathSt v).1

/-- Calling a converted head value on converted arguments, elem(*arguments)
in to_python.  Only the modelled builtins are callable:

* list1.list builder: list(args) - the argument tuple as a list;
* set1.set builder: set(args) - deduplicated, iteration order as built;
* complex: complex(re, im) over two numbers (int, bool or float);
* interval1.integer_interval builder: range(x, y + 1, 1) over two ints. -/
def pyNumToFloat : PyVal → Option PFloat
  | .int n => some (.finite (n : ℚ))
  | .bool b => some (.finite (if b then 1 else 0))
  | .float f => some f
  | _ => Option.none

def pyDedup : PyList → List PyVal → PyList
  | .nil, _ => .nil
  | .cons h t, seen =>
      if h ∈ seen then pyDedup t seen
      else .cons h (pyDedup t (h :: seen))

def callBuiltin : PyBuiltin → List PyVal → Except PyErr PyVal
  | .listBuilder, args => .ok (.list (PyList.ofList args))
  | .setBuilder, args => .ok (.set (pyDedup (PyList.ofList args) []))
  | .complexCartesian, args =>
      match args with
      | [a, b] =>
          match pyNumToFloat a, pyNumToFloat b with
          | some x, some y => .ok (.complex x y)
          | _, _ => .error (.typeError "complex() argument must be a number")
      | _ => .error (.typeError "complex() takes at most 2 arguments")
  | .integerInterval, args =>
      match args with
      | [.int x, .int y] => .ok (.range x (y + 1) 1)
      | _ => .error (.typeError "range() arguments must be integers")

def callPy : PyVal → List PyVal → Except PyErr PyVal
  | .builtin f, args => callBuiltin f args
  | _, _ => .error (.typeError "object is not callable")

/- to_python with explicit state threading: first the exact-class override
dictionary, then symbol lookup for OMSymbol, then the OMApplication case
(convert the head, convert each argument in order, call the head on them);
every other variant fails with ValueError. -/
mutual
def Converter.to_pythonSt (c : Converter) (n : OMAny) : Except PyErr PyVal × Converter :=
  match findAssoc c.omclass_to_py (classOf n) with
  | some f => (f n, c)
  | Option.none =>
    match n with
    | .OMSymbol name cd _ cdbase => (c.lookup_to_python cdbase cd name, c)
    | .OMApplication elem args _ _ =>
        let p1 := c.to_pythonSt elem
        match p1.1 with
        | .error e => (.error e, p1.2)
        | .ok head =>
            let p2 := Converter.to_pythonListSt p1.2 args
            match p2.1 with
            | .error e => (.error e, p2.2)
            | .ok vs => (callPy head vs, p2.2)
    | _ => (.error (.valueError "Cannot convert object to Python."), c)
termination_by structural n

def Converter.to_pythonListSt (c : Converter) (l : OMList) : Except PyErr (List PyVal) × Converter :=
  match l with
  | .nil => (.ok [], c)
  | .cons hd tl =>
      let p1 := c.to_pythonSt hd
      match p1.1 with
      | .error e => (.error e, p1.2)
      | .ok v =>
          let p2 := Converter.to_pythonListSt p1.2 tl
          match p2.1 with
          | .error e => (.error e, p2.2)
          | .ok vs => (.ok (v :: vs), p2.2)
termination_by structural l
end

/-- Converter.to_python (result part). -/
def Converter.to_python (c : Converter) (n : OMAny) : Except PyErr PyVal :=
  (c.to_pythonSt n).1

/- ------------------------------------------------------------------ -/
/- convert.py: BasicPythonConverter / DefaultConverter                 -/
/- ------------------------------------------------------------------ -/

/-- The base URI for the standard OpenMath content dictionaries
(BasicPythonConverter._omBase). -/
def omBase : String := "http://www.openmath.org/cd"

/-- The oms helper of BasicPythonConverter.__init__:
OMSymbol(name=name, cd=cd, cdbase=_omBase). -/
def omsBasic (name cd : String) : OMAny :=
  .OMSymbol name cd Option.none (some omBase)

/-- int(x) coercion applied by OMInteger.__init__ through the integer rule
lambda i: OMInteger(i).  The guard restricts the argument to int (including
bool); the other numeric coercions of Python int() are not needed. -/
def pyIntCoerce : PyVal → Except PyErr ℤ
  | .int n => .ok n
  | .bool b => .ok (if b then 1 else 0)
  | _ => .error (.typeError "int() argument mismatch")

/-- The body of do_float, as a function of the stored double: positive
infinity becomes the nums1.infinity symbol, everything else an OMFloat.
The full resolution basicToOM applied to a float value reduces to exactly
this function (its guards range, set, list, complex all reject floats), so
the recursive self.to_openmath calls that the complex rule makes on c.real
and c.imag factor through it. -/
def basicFloatToOM (f : PFloat) : Except PyErr OMAny :=
  if f.isInf then .ok (omsBasic "infinity" "nums1")
  else .ok (.OMFloat f Option.none)

/- The resolution of DefaultConverter.to_openmath, unrolled: the rules
registered by BasicPythonConverter.__init__ in order int, str, bytes, bool,
float, complex, list, set, range are iterated in reverse registration order
by the to_openmath loop, so the first matching type guard for a value is
determined by its class: range, set, list, complex, float, bool, bytes, str,
int, with values matching no guard falling through to the __openmath__ hook
or ValueError.  The recursive self.to_openmath calls of the list and set
rules are basicToOM again; the ones the complex rule makes on the float
values c.real and c.imag go through basicFloatToOM, to which basicToOM on a
float is definitionally equal.  The agreement of this unrolling with the
generic loop applied to basicConverter is proved below
(to_openmath_basicConverter_eq). -/
mutual
def basicToOM : PyVal → Except PyErr OMAny
  | .range a b st =>
      -- do_range: the failure branch interpolates the undefined name obj
      -- into its message, so a non-unit step raises NameError, never the
      -- intended ValueError
      if st ≠ 1 then .error (.nameError "obj")
      else .ok (.OMApplication (omsBasic "integer_interval" "interval1")
        (.cons (.OMInteger a Option.none) (.cons (.OMInteger (b - 1) Option.none) .nil))
        Option.none Option.none)
  | .set s =>
      -- do_set: emptyset symbol for an empty set, set1.set application else
      match s with
      | .nil => .ok (omsBasic "emptyset" "set1")
      | .cons hd tl => do
          let args ← basicToOMList (.cons hd tl)
          .ok (.OMApplication (omsBasic "set" "set1") args Option.none Option.none)
  | .list l => do
      let args ← basicToOMList l
      .ok (.OMApplication (omsBasic "list" "list1") args Option.none Option.none)
  | .complex re im => do
      let a ← basicFloatToOM re
      let b ← basicFloatToOM im
      .ok (.OMApplication (omsBasic "complex_cartesian" "complex1")
        (.cons a (.cons b .nil)) Option.none Option.none)
  | .float f => basicFloatToOM f
  | .bool b =>
      -- str(b).lower() is "true" or "false"
      .ok (omsBasic (if b then "true" else "false") "logic1")
  | .bytes bs => .ok (.OMBytes bs Option.none)
  | .str s => .ok (.OMString (some s) Option.none)
  | .int n => do
      let i ← pyIntCoerce (.int n)
      .ok (.OMInteger i Option.none)
  | v =>
      match openmathHook v with
      | some n => .ok n
      | Option.none => .error (.valueError "Cannot convert to OpenMath.")
termination_by structural v => v

def basicToOMList : PyList → Except PyErr OMList
  | .nil => .ok .nil
  | .cons hd tl => do
      let a ← basicToOM hd
      let rest ← basicToOMList tl
      .ok (.cons a rest)
termination_by structural l => l
end

/- The rule closures registered by BasicPythonConverter.__init__, as named
definitions.  The to_openmath loop only invokes a rule on values passing its
type guard, so each closure below only ever sees values of its own class;
the off-guard fallback arms are unreachable through the registry and carry a
TypeError placeholder. -/

/-- lambda i: OMInteger(i) (registered for every six.integer_types entry,
i.e. int on Python 3; OMInteger.__init__ applies int()). -/
def conv_int (v : PyVal) : Except PyErr OMAny := do
  let i ← pyIntCoerce v
  .ok (.OMInteger i Option.none)

/-- lambda s: OMString(s) (OMString stores the value unchanged). -/
def conv_str : PyVal → Except PyErr OMAny
  | .str s => .ok (.OMString (some s) Option.none)
  | _ => .error (.typeError "str expected")

/-- lambda b: OMBytes(b). -/
def conv_bytes : PyVal → Except PyErr OMAny
  | .bytes b => .ok (.OMBytes b Option.none)
  | _ => .error (.typeError "bytes expected")

/-- lambda b: oms(str(b).lower(), "logic1"). -/
def conv_bool : PyVal → Except PyErr OMAny
  | .bool b => .ok (omsBasic (if b then "true" else "false") "logic1")
  | _ => .error (.typeError "bool expected")

/-- do_float: positive infinity becomes the nums1.infinity symbol, any other
float is stored in an OMFloat. -/
def do_float : PyVal → Except PyErr OMAny
  | .float f =>
      if f.isInf then .ok (omsBasic "infinity" "nums1")
      else .ok (.OMFloat f Option.none)
  | _ => .error (.typeError "float expected")

/-- lambda c: OMApplication(oms(complex_cartesian, complex1),
map(self.to_openmath, [c.real, c.imag])); the recursive conversions go
through the default resolution (basicToOM). -/
def conv_complex : PyVal → Except PyErr OMAny
  | .complex re im => do
      let a ← basicToOM (.float re)
      let b ← basicToOM (.float im)
      .ok (.OMApplication (omsBasic "complex_cartesian" "complex1")
        (.cons a (.cons b .nil)) Option.none Option.none)
  | _ => .error (.typeError "complex expected")

/-- lambda l: OMApplication(oms(list, list1), map(self.to_openmath, l)). -/
def conv_list : PyVal → Except PyErr OMAny
  | .list l => do
      let args ← basicToOMList l
      .ok (.OMApplication (omsBasic "list" "list1") args Option.none Option.none)
  | _ => .error (.typeError "list expected")

/-- do_set: a non-empty set becomes a set1.set application over the
recursively converted elements (in iteration order), the empty set the
set1.emptyset symbol. -/
def do_set : PyVal → Except PyErr OMAny
  | .set .nil => .ok (omsBasic "emptyset" "set1")
  | .set (.cons hd tl) => do
      let args ← basicToOMList (.cons hd tl)
      .ok (.OMApplication (omsBasic "set" "set1") args Option.none Option.none)
  | _ => .error (.typeError "set expected")

/-- do_range: a step-1 range becomes an interval1.integer_interval
application over OMInteger(r.start) and OMInteger(r.stop - 1).  The failure
branch raises ValueError with a message interpolating the name obj - which
is not defined in any enclosing scope of do_range - so what is actually
raised on a non-unit step is NameError("obj"). -/
def do_range : PyVal → Except PyErr OMAny
  | .range a b st =>
      if st ≠ 1 then .error (.nameError "obj")
      else .ok (.OMApplication (omsBasic "integer_interval" "interval1")
        (.cons (.OMInteger a Option.none) (.cons (.OMInteger (b - 1) Option.none) .nil))
        Option.none Option.none)
  | _ => .error (.typeError "range expected")

/- The class-override closures registered for the literal classes. -/

/-- lambda o: o.integer. -/
def py_of_OMInteger : OMAny → Except PyErr PyVal
  | .OMInteger i _ => .ok (.int i)
  | _ => .error (.attributeError "integer")

/-- lambda o: o.double. -/
def py_of_OMFloat : OMAny → Except PyErr PyVal
  | .OMFloat d _ => .ok (.float d)
  | _ => .error (.attributeError "double")

/-- lambda o: o.string (None when the stored string is None). -/
def py_of_OMString : OMAny → Except PyErr PyVal
  | .OMString (some s) _ => .ok (.str s)
  | .OMString Option.none _ => .ok .none
  | _ => .error (.attributeError "string")

/-- lambda o: o.bytes. -/
def py_of_OMBytes : OMAny → Except PyErr PyVal
  | .OMBytes b _ => .ok (.bytes b)
  | _ => .error (.attributeError "bytes")

/-- BasicPythonConverter.__init__, transcribed as the chain of registrations
it performs on a fresh Converter, in source order: the eight symbol rules
(each through register_to_python_name with _omBase), the four literal class
overrides, then the nine native-to-OM rules in order int, str, bytes, bool,
float, complex, list, set, range. -/
def basicConverter : Converter :=
  ((((((((((((((((((((Converter.empty.register_to_python_name
    omBase "nums1" "infinity" (.float .inf)).register_to_python_name
    omBase "logic1" "true" (.bool true)).register_to_python_name
    omBase "logic1" "false" (.bool false)).register_to_python_name
    omBase "set1" "emptyset" (.set .nil)).register_to_python_name
    omBase "set1" "set" (.builtin .setBuilder)).register_to_python_name
    omBase "list1" "list" (.builtin .listBuilder)).register_to_python_name
    omBase "complex1" "complex_cartesian" (.builtin .complexCartesian)).register_to_python_name
    omBase "interval1" "integer_interval" (.builtin .integerInterval)).register_to_python_class
    .cOMInteger py_of_OMInteger).register_to_python_class
    .cOMFloat py_of_OMFloat).register_to_python_class
    .cOMString py_of_OMString).register_to_python_class
    .cOMBytes py_of_OMBytes).register_to_openmath
    (some .int) (.fn conv_int)).register_to_openmath
    (some .str) (.fn conv_str)).register_to_openmath
    (some .bytes) (.fn conv_bytes)).register_to_openmath
    (some .bool) (.fn conv_bool)).register_to_openmath
    (some .float) (.fn do_float)).register_to_openmath
    (some .complex) (.fn conv_complex)).register_to_openmath
    (some .list) (.fn conv_list)).register_to_openmath
    (some .set) (.fn do_set)).register_to_openmath
    (some .range) (.fn do_range)

/-- The module-level DefaultConverter instance. -/
def DefaultConverter : Converter := basicConverter

/- None of the default rules ever raises CannotConvertError: they either
return a node or raise a terminal error (TypeError, ValueError, NameError).
Proved mutually with the list version, by the same recursion as the
definition. -/
mutual
theorem basicToOM_ne_cc (v : PyVal) :
    basicToOM v ≠ Except.error PyErr.cannotConvert := by
  cases v with
  | range a b st => simp only [basicToOM]; split <;> simp
  | set s =>
      cases s with
      | nil => simp [basicToOM]
      | cons hd tl =>
          have h := basicToOMList_ne_cc (.cons hd tl)
          simp only [basicToOM]
          cases hl : basicToOMList (.cons hd tl) with
          | ok args => simp [hl, Except.bind]
          | error e => rw [hl] at h; cases e <;> simp_all [Except.bind]
  | list l =>
      have h := basicToOMList_ne_cc l
      simp only [basicToOM]
      cases hl : basicToOMList l with
      | ok args => simp [hl, Except.bind]
      | error e => rw [hl] at h; cases e <;> simp_all [Except.bind]
  | complex re im =>
      simp only [basicToOM, basicFloatToOM]
      cases hre : re.isInf <;> cases him : im.isInf <;> simp [hre, him]
  | float f => simp only [basicToOM, basicFloatToOM]; split <;> simp
  | bool b => simp [basicToOM]
  | bytes bs => simp [basicToOM]
  | str s => simp [basicToOM]
  | int n => simp [basicToOM, pyIntCoerce, Except.bind]
  | builtin f => simp [basicToOM, openmathHook]
  | none => simp [basicToOM, openmathHook]
  | obj hook => cases hook <;> simp [basicToOM, openmathHook]
termination_by structural v

theorem basicToOMList_ne_cc (l : PyList) :
    basicToOMList l ≠ Except.error PyErr.cannotConvert := by
  cases l with
  | nil => simp [basicToOMList]
  | cons hd tl =>
      have h1 := basicToOM_ne_cc hd
      have h2 := basicToOMList_ne_cc tl
      simp only [basicToOMList]
      cases hh : basicToOM hd with
      | ok a =>
          cases ht : basicToOMList tl with
          | ok rest => simp [hh, ht, Except.bind]
          | error e => rw [ht] at h2; cases e <;> simp_all [Except.bind]
      | error e => rw [hh] at h1; cases e <;> simp_all [Except.bind]
termination_by structural l
end

/-- Agreement of the unrolled resolution basicToOM with the generic
to_openmath loop applied to the registry that BasicPythonConverter builds:
for every value, DefaultConverter.to_openmath is basicToOM. -/
theorem to_openmath_basicConverter_eq (v : PyVal) :
    DefaultConverter.to_openmath v = basicToOM v := by
  cases v with
  | int n =>
      simp [DefaultConverter, basicConverter, Converter.empty,
        Converter.register_to_openmath, Converter.register_to_python_class,
        Converter.register_to_python_name, Converter.to_openmath,
        Converter.to_openmathSt, toOMLoopSt, guardMatches, isinst,
        applyToOMRule, basicToOM, conv_int, pyIntCoerce]
  | bool b =>
      simp [DefaultConverter, basicConverter, Converter.empty,
        Converter.register_to_openmath, Converter.register_to_python_class,
        Converter.register_to_python_name, Converter.to_openmath,
        Converter.to_openmathSt, toOMLoopSt, guardMatches, isinst,
        applyToOMRule, basicToOM, conv_bool]
  | str s =>
      simp [DefaultConverter, basicConverter, Converter.empty,
        Converter.register_to_openmath, Converter.register_to_python_class,
        Converter.register_to_python_name, Converter.to_openmath,
        Converter.to_openmathSt, toOMLoopSt, guardMatches, isinst,
        applyToOMRule, basicToOM, conv_str]
  | bytes bs =>
      simp [DefaultConverter, basicConverter, Converter.empty,
        Converter.register_to_openmath, Converter.register_to_python_class,
        Converter.register_to_python_name, Converter.to_openmath,
        Converter.to_openmathSt, toOMLoopSt, guardMatches, isinst,
        applyToOMRule, basicToOM, conv_bytes]
  | float f =>
      simp only [DefaultConverter, basicConverter, Converter.empty,
        Converter.register_to_openmath, Converter.register_to_python_class,
        Converter.register_to_python_name, Converter.to_openmath,
        Converter.to_openmathSt, toOMLoopSt, guardMatches, isinst,
        applyToOMRule, List.reverse, List.reverseAux]
      cases hf : f.isInf <;> simp [hf, do_float, basicToOM, basicFloatToOM]
  | complex re im =>
      simp only [DefaultConverter, basicConverter, Converter.empty,
        Converter.register_to_openmath, Converter.register_to_python_class,
        Converter.register_to_python_name, Converter.to_openmath,
        Converter.to_openmathSt, toOMLoopSt, guardMatches, isinst,
        applyToOMRule, List.reverse, List.reverseAux]
      cases hre : re.isInf <;> cases him : im.isInf <;>
        simp [hre, him, conv_complex, basicToOM, basicFloatToOM]
  | list l =>
      simp only [DefaultConverter, basicConverter, Converter.empty,
        Converter.register_to_openmath, Converter.register_to_python_class,
        Converter.register_to_python_name, Converter.to_openmath,
        Converter.to_openmathSt, toOMLoopSt, guardMatches, isinst,
        applyToOMRule, List.reverse, List.reverseAux]
      cases hl : basicToOMList l with
      | ok args => simp [hl, conv_list, basicToOM]
      | error e =>
          have h := basicToOMList_ne_cc l
          rw [hl] at h
          cases e <;> simp_all [conv_list, basicToOM]
  | set s =>
      simp only [DefaultConverter, basicConverter, Converter.empty,
        Converter.register_to_openmath, Converter.register_to_python_class,
        Converter.register_to_python_name, Converter.to_openmath,
        Converter.to_openmathSt, toOMLoopSt, guardMatches, isinst,
        applyToOMRule, List.reverse, List.reverseAux]
      cases s with
      | nil => simp [do_set, basicToOM]
      | cons hd tl =>
          cases hl : basicToOMList (.cons hd tl) with
          | ok args => simp [hl, do_set, basicToOM]
          | error e =>
              have h := basicToOMList_ne_cc (.cons hd tl)
              rw [hl] at h
              cases e <;> simp_all [do_set, basicToOM]
  | range a b st =>
      simp only [DefaultConverter, basicConverter, Converter.empty,
        Converter.register_to_openmath, Converter.register_to_python_class,
        Converter.register_to_python_name, Converter.to_openmath,
        Converter.to_openmathSt, toOMLoopSt, guardMatches, isinst,
        applyToOMRule, List.reverse, List.reverseAux]
      by_cases hst : st = 1 <;> simp [hst, do_range, basicToOM]
  | builtin f =>
      simp [DefaultConverter, basicConverter, Converter.empty,
        Converter.register_to_openmath, Converter.register_to_python_class,
        Converter.register_to_python_name, Converter.to_openmath,
        Converter.to_openmathSt, toOMLoopSt, guardMatches, isinst,
        applyToOMRule, basicToOM, openmathHook]
  | none =>
      simp [DefaultConverter, basicConverter, Converter.empty,
        Converter.register_to_openmath, Converter.register_to_python_class,
        Converter.register_to_python_name, Converter.to_openmath,
        Converter.to_openmathSt, toOMLoopSt, guardMatches, isinst,
        applyToOMRule, basicToOM, openmathHook]
  | obj hook =>
      cases hook <;>
        simp [DefaultConverter, basicConverter, Converter.empty,
          Converter.register_to_openmath, Converter.register_to_python_class,
          Converter.register_to_python_name, Converter.to_openmath,
          Converter.to_openmathSt, toOMLoopSt, guardMatches, isinst,
          applyToOMRule, basicToOM, openmathHook]

/- ------------------------------------------------------------------ -/
/- Shared helper lemmas                                                -/
/- ------------------------------------------------------------------ -/

instance {ε α : Type} [DecidableEq ε] [DecidableEq α] : DecidableEq (Except ε α) :=
  fun a b =>
    match a, b with
    | .ok x, .ok y => decidable_of_iff (x = y) (by simp)
    | .error e, .error f => decidable_of_iff (e = f) (by simp)
    | .ok _, .error _ => .isFalse (by simp)
    | .error _, .ok _ => .isFalse (by simp)

/-- The rule loop never leaves the converter state changed (the loop body
only reads the registries). -/
theorem toOMLoopSt_frame (v : PyVal) (c : Converter) :
    ∀ l : List (Option PyClass × ToOMRule), (toOMLoopSt v c l).2 = c := by
  intro l
  induction l with
  | nil =>
      simp only [toOMLoopSt]
      cases openmathHook v <;> simp
  | cons hd tl ih =>
      obtain ⟨g, r⟩ := hd
      cases hg : guardMatches g v
      · simpa [toOMLoopSt, hg] using ih
      · simp only [toOMLoopSt, hg, if_true]
        cases hr : applyToOMRule r v with
        | ok n => simp
        | error e => cases e <;> simp [ih]

/-- Skipping lemma for the rule loop: an entry whose guard matches and whose
rule signals CannotConvertError can be removed from any position of the
iteration list without changing the outcome. -/
theorem toOMLoopSt_skip (v : PyVal) (c : Converter) (g : Option PyClass)
    (r : ToOMRule) (hg : guardMatches g v = true)
    (hr : applyToOMRule r v = .error .cannotConvert) :
    ∀ l1 l2, toOMLoopSt v c (l1 ++ (g, r) :: l2) = toOMLoopSt v c (l1 ++ l2) := by
  intro l1
  induction l1 with
  | nil => intro l2; simp [toOMLoopSt, hg, hr]
  | cons hd tl ih =>
      intro l2
      obtain ⟨g', r'⟩ := hd
      cases hgm : guardMatches g' v
      · simp [toOMLoopSt, hgm, ih]
      · simp only [List.cons_append, toOMLoopSt, hgm, if_true]
        cases harv : applyToOMRule r' v with
        | ok n => simp
        | error e => cases e <;> simp [ih]

/-- The rule loop never produces CannotConvertError itself: a rule error of
that class is always caught (continue), and both fallbacks produce either a
node or a ValueError. -/
theorem toOMLoopSt_ne_cc (v : PyVal) (c : Converter) :
    ∀ l : List (Option PyClass × ToOMRule),
      (toOMLoopSt v c l).1 ≠ Except.error PyErr.cannotConvert := by
  intro l
  induction l with
  | nil =>
      simp only [toOMLoopSt]
      cases openmathHook v <;> simp
  | cons hd tl ih =>
      obtain ⟨g, r⟩ := hd
      cases hg : guardMatches g v
      · simpa [toOMLoopSt, hg] using ih
      · simp only [toOMLoopSt, hg, if_true]
        cases hr : applyToOMRule r v with
        | ok n => simp
        | error e => cases e <;> simp [ih]

/- State preservation of to_python, by the same mutual structural recursion
as the definition. -/
mutual
theorem to_pythonSt_frame (c : Converter) (n : OMAny) : (c.to_pythonSt n).2 = c := by
  cases n with
  | OMApplication elem args id cdbase =>
      simp only [Converter.to_pythonSt]
      cases hf : findAssoc c.omclass_to_py (classOf (.OMApplication elem args id cdbase)) with
      | some f => simp
      | none =>
          simp only []
          have h1 := to_pythonSt_frame c elem
          have h2 := to_pythonListSt_frame (c.to_pythonSt elem).2 args
          cases hr1 : (c.to_pythonSt elem).1 with
          | error e => simpa using h1
          | ok head =>
              cases hr2 : (Converter.to_pythonListSt (c.to_pythonSt elem).2 args).1 with
              | error e => simpa using h2.trans h1
              | ok vs => simpa using h2.trans h1
  | OMSymbol name cd id cdbase =>
      simp only [Converter.to_pythonSt]
      cases hf : findAssoc c.omclass_to_py (classOf (.OMSymbol name cd id cdbase)) <;> simp
  | OMObject omel version id cdbase =>
      simp only [Converter.to_pythonSt]
      cases hf : findAssoc c.omclass_to_py (classOf (.OMObject omel version id cdbase)) <;> simp
  | OMReference href id =>
      simp only [Converter.to_pythonSt]
      cases hf : findAssoc c.omclass_to_py (classOf (.OMReference href id)) <;> simp
  | OMInteger i id =>
      simp only [Converter.to_pythonSt]
      cases hf : findAssoc c.omclass_to_py (classOf (.OMInteger i id)) <;> simp
  | OMFloat d id =>
      simp only [Converter.to_pythonSt]
      cases hf : findAssoc c.omclass_to_py (classOf (.OMFloat d id)) <;> simp
  | OMString s id =>
      simp only [Converter.to_pythonSt]
      cases hf : findAssoc c.omclass_to_py (classOf (.OMString s id)) <;> simp
  | OMBytes b id =>
      simp only [Converter.to_pythonSt]
      cases hf : findAssoc c.omclass_to_py (classOf (.OMBytes b id)) <;> simp
  | OMVariable name id =>
      simp only [Converter.to_pythonSt]
      cases hf : findAssoc c.omclass_to_py (classOf (.OMVariable name id)) <;> simp
  | OMForeign obj encoding id cdbase =>
      simp only [Converter.to_pythonSt]
      cases hf : findAssoc c.omclass_to_py (classOf (.OMForeign obj encoding id cdbase)) <;> simp
  | OMAttribution pairs obj id cdbase =>
      simp only [Converter.to_pythonSt]
      cases hf : findAssoc c.omclass_to_py (classOf (.OMAttribution pairs obj id cdbase)) <;> simp
  | OMAttributionPairs pairs id cdbase =>
      simp only [Converter.to_pythonSt]
      cases hf : findAssoc c.omclass_to_py (classOf (.OMAttributionPairs pairs id cdbase)) <;> simp
  | OMBinding binder vars obj id cdbase =>
      simp only [Converter.to_pythonSt]
      cases hf : findAssoc c.omclass_to_py (classOf (.OMBinding binder vars obj id cdbase)) <;> simp
  | OMBindVariables vars id =>
      simp only [Converter.to_pythonSt]
      cases hf : findAssoc c.omclass_to_py (classOf (.OMBindVariables vars id)) <;> simp
  | OMAttVar pairs obj id =>
      simp only [Converter.to_pythonSt]
      cases hf : findAssoc c.omclass_to_py (classOf (.OMAttVar pairs obj id)) <;> simp
  | OMError name params id cdbase =>
      simp only [Converter.to_pythonSt]
      cases hf : findAssoc c.omclass_to_py (classOf (.OMError name params id cdbase)) <;> simp
termination_by structural n

theorem to_pythonListSt_frame (c : Converter) (l : OMList) :
    (Converter.to_pythonListSt c l).2 = c := by
  cases l with
  | nil => simp [Converter.to_pythonListSt]
  | cons hd tl =>
      simp only [Converter.to_pythonListSt]
      have h1 := to_pythonSt_frame c hd
      have h2 := to_pythonListSt_frame (c.to_pythonSt hd).2 tl
      cases hr1 : (c.to_pythonSt hd).1 with
      | error e => simpa using h1
      | ok v =>
          cases hr2 : (Converter.to_pythonListSt (c.to_pythonSt hd).2 tl).1 with
          | error e => simpa using h2.trans h1
          | ok vs => simpa using h2.trans h1
termination_by structural l
end

/-- The result component of the rule loop does not depend on the converter
argument that is threaded for the state (the loop only returns it). -/
theorem toOMLoopSt_fst_const (v : PyVal) (c c' : Converter) :
    ∀ l : List (Option PyClass × ToOMRule),
      (toOMLoopSt v c l).1 = (toOMLoopSt v c' l).1 := by
  intro l
  induction l with
  | nil =>
      simp only [toOMLoopSt]
      cases openmathHook v <;> simp
  | cons hd tl ih =>
      obtain ⟨g, r⟩ := hd
      cases hg : guardMatches g v
      · simpa [toOMLoopSt, hg] using ih
      · simp only [toOMLoopSt, hg, if_true]
        cases hr : applyToOMRule r v with
        | ok n => simp
        | error e => cases e <;> simp [ih]

/- ------------------------------------------------------------------ -/
/- The claims                                                          -/
/- ------------------------------------------------------------------ -/

/-- The XML element the specification expects for encoding OMInteger(1):
tag OMI in the OpenMath namespace, no attributes, text "1", no children. -/
def omi1Elem : XMLElement := .mk (omTag "OMI") [] (some "1") .nil

/-- C1: the claim states decode_xml(encode_xml(x)) == x for every
constructible node.  It fails on the code: encoding OMInteger(1) reads the
attribute obj.val, which OMInteger does not define (its field is .integer),
so the encoder raises AttributeError and the round trip never produces a
node, contradicting the repository's own tests which expect OMInteger(1) to
encode.  This theorem evaluates the composed round trip at the failing
input. -/
theorem C1_roundtrip_breaks_on_OMInteger :
    (encode_xml (.OMInteger 1 Option.none) >>= fun e => decode_xml e false)
      = Except.error (.attributeError "val") := rfl

/-- The default-converter round trip of the spec: to_python after
to_openmath.  Equality of PyVal values is typed (the constructor carries the
native class, e.g. bool true is distinct from int 1 exactly as Python
type() distinguishes them), so each identity below also establishes that
the round trip preserves the native type. -/
def convert_roundtrip (v : PyVal) : Except PyErr PyVal :=
  DefaultConverter.to_openmath v >>= DefaultConverter.to_python

set_option smartUnfolding false in
/-- C2: for every value in the spec's list - 0, 1, -1, 2^100, True, False,
0.0, 0.1, float infinity, complex(1,0), complex(0,1), the empty string,
"test", the empty list, [1,2,3], the empty set, the set of 1,2,3 (in its
iteration order), and range(1,13) (the integers 1..12 with step 1) - the
default converter's to_python after to_openmath returns the same value of
the same native type. -/
theorem C2_default_converter_roundtrip_identity :
    convert_roundtrip (.int 0) = .ok (.int 0)
    ∧ convert_roundtrip (.int 1) = .ok (.int 1)
    ∧ convert_roundtrip (.int (-1)) = .ok (.int (-1))
    ∧ convert_roundtrip (.int (2 ^ 100)) = .ok (.int (2 ^ 100))
    ∧ convert_roundtrip (.bool true) = .ok (.bool true)
    ∧ convert_roundtrip (.bool false) = .ok (.bool false)
    ∧ convert_roundtrip (.float (.finite 0)) = .ok (.float (.finite 0))
    ∧ convert_roundtrip (.float (.finite (1 / 10))) = .ok (.float (.finite (1 / 10)))
    ∧ convert_roundtrip (.float .inf) = .ok (.float .inf)
    ∧ convert_roundtrip (.complex (.finite 1) (.finite 0))
        = .ok (.complex (.finite 1) (.finite 0))
    ∧ convert_roundtrip (.complex (.finite 0) (.finite 1))
        = .ok (.complex (.finite 0) (.finite 1))
    ∧ convert_roundtrip (.str "") = .ok (.str "")
    ∧ convert_roundtrip (.str "test") = .ok (.str "test")
    ∧ convert_roundtrip (.list .nil) = .ok (.list .nil)
    ∧ convert_roundtrip (.list (.cons (.int 1) (.cons (.int 2) (.cons (.int 3) .nil))))
        = .ok (.list (.cons (.int 1) (.cons (.int 2) (.cons (.int 3) .nil))))
    ∧ convert_roundtrip (.set .nil) = .ok (.set .nil)
    ∧ convert_roundtrip (.set (.cons (.int 1) (.cons (.int 2) (.cons (.int 3) .nil))))
        = .ok (.set (.cons (.int 1) (.cons (.int 2) (.cons (.int 3) .nil))))
    ∧ convert_roundtrip (.range 1 13 1) = .ok (.range 1 13 1) :=
  ⟨rfl, rfl, rfl, rfl, rfl, rfl, rfl, rfl, rfl, rfl, rfl, rfl, rfl, rfl, rfl,
   rfl, rfl, rfl⟩

/-- C3: the claim states that encoding OMInteger(1) yields exactly the
element OMI with text "1".  The code instead raises
AttributeError("val") - the OMI branch of encode_xml reads obj.val, an
attribute OMInteger does not have (openmath.py defines .integer) - so no
element at all is produced. -/
theorem C3_encode_OMInteger_one_fails :
    encode_xml (.OMInteger 1 Option.none) ≠ Except.ok omi1Elem
    ∧ encode_xml (.OMInteger 1 Option.none) = Except.error (.attributeError "val") :=
  ⟨by decide, rfl⟩

/-- A document whose root is an OMA element (not OMOBJ) that nevertheless
carries version="2.0", with one OMV child. -/
def omaVersionedRoot : XMLElement :=
  .mk (omTag "OMA") [("version", "2.0")] Option.none
    (.cons (.mk (omTag "OMV") [("name", "x")] Option.none .nil) .nil)

set_option smartUnfolding false in
/-- C4 counterexample: the claim says top-level stream decoding succeeds
only if the root element is OMOBJ with version "2.0".  decode_stream only
checks the version attribute, never the tag: a document whose root is an
OMA element carrying version="2.0" decodes successfully. -/
theorem C4_counterexample_root_tag_unchecked :
    omaVersionedRoot.tag ≠ omTag "OMOBJ"
    ∧ decode_stream omaVersionedRoot
        = Except.ok (.OMApplication (.OMVariable "x" Option.none) .nil
            Option.none Option.none) :=
  ⟨by decide, rfl⟩

/-- C4 amended: top-level stream decoding fails with the UnsupportedVersion
error (ValueError "Only OpenMath 2.0 is supported") for every document whose
root does not carry a version attribute equal to "2.0"; the root's tag is
not checked, so any decodable element with version="2.0" is accepted. -/
theorem C4_version_gate (root : XMLElement)
    (h : xmlGet root "version" ≠ some "2.0") :
    decode_stream root = Except.error (.valueError "Only OpenMath 2.0 is supported") := by
  unfold decode_stream
  cases hv : xmlGet root "version" with
  | none => rfl
  | some v =>
      have hne : v ≠ "2.0" := fun he => h (by rw [hv, he])
      simp [hne]

/-- The spec's own example of a version-less top-level document. -/
def omstrRoot : XMLElement := .mk (omTag "OMSTR") [] (some "hello world") .nil

/-- Witness for C4 amended: the snippet OMSTR document has no version
attribute and is rejected by decode_stream. -/
theorem C4_version_gate_witness :
    xmlGet omstrRoot "version" ≠ some "2.0"
    ∧ decode_stream omstrRoot
        = Except.error (.valueError "Only OpenMath 2.0 is supported") :=
  ⟨by decide, C4_version_gate omstrRoot (by decide)⟩

set_option smartUnfolding false in
/-- C5: converting the native boolean True with the default converter yields
the symbol logic1.true (with the standard cd base), never OMInteger(1): the
bool rule is registered after the int rule and the loop iterates newest
first, so it wins although isinstance(True, int) holds. -/
theorem C5_bool_true_converts_to_logic1_true :
    DefaultConverter.to_openmath (.bool true)
      = Except.ok (.OMSymbol "true" "logic1" Option.none (some omBase))
    ∧ DefaultConverter.to_openmath (.bool true) ≠ Except.ok (.OMInteger 1 Option.none) :=
  ⟨rfl, by decide⟩

/-- C6: (a) a registered rule whose guard matches and which signals
CannotConvertError is skipped, from any position of the iteration order,
and resolution continues with the remaining (next-older) rules; (b) a rule
failure of any other class aborts the conversion immediately and
propagates; (c) to_openmath never lets CannotConvertError escape to its
caller. -/
theorem C6_cannotconvert_skipped_other_errors_propagate :
    (∀ (c : Converter) (pre post : List (Option PyClass × ToOMRule))
        (g : Option PyClass) (r : ToOMRule) (v : PyVal),
        c.conv_to_om = pre ++ (g, r) :: post →
        guardMatches g v = true →
        applyToOMRule r v = Except.error PyErr.cannotConvert →
        c.to_openmath v
          = Converter.to_openmath { c with conv_to_om := pre ++ post } v)
    ∧ (∀ (c : Converter) (g : Option PyClass) (r : ToOMRule) (v : PyVal) (e : PyErr),
        guardMatches g v = true →
        applyToOMRule r v = Except.error e →
        e ≠ PyErr.cannotConvert →
        (c.register_to_openmath g r).to_openmath v = Except.error e)
    ∧ (∀ (c : Converter) (v : PyVal),
        c.to_openmath v ≠ Except.error PyErr.cannotConvert) := by
  refine ⟨?_, ?_, ?_⟩
  · intro c pre post g r v hc hg hr
    simp only [Converter.to_openmath, Converter.to_openmathSt, hc,
      List.reverse_append, List.reverse_cons, List.append_assoc,
      List.singleton_append]
    rw [toOMLoopSt_skip v c g r hg hr]
    exact toOMLoopSt_fst_const v c _ _
  · intro c g r v e hg hr hne
    simp only [Converter.to_openmath, Converter.to_openmathSt,
      Converter.register_to_openmath, List.reverse_append,
      List.reverse_cons, List.reverse_nil, List.nil_append,
      List.singleton_append, toOMLoopSt, hg, if_true, hr]
  · intro c v
    exact toOMLoopSt_ne_cc v c _

/-- The always-skipping rule of the repository's own test_register_skip. -/
def skipRule : ToOMRule := .fn (fun _ => Except.error PyErr.cannotConvert)

/-- A rule that fails with a non-CannotConvert error. -/
def boomRule : ToOMRule := .fn (fun _ => Except.error (PyErr.typeError "boom"))

/-- A converter with the str rule and, registered after it (hence tried
first), an unconditional always-skipping rule. -/
def cWithSkip : Converter :=
  (Converter.empty.register_to_openmath (some .str) (.fn conv_str)).register_to_openmath
    Option.none skipRule

/-- Witness for C6, at concrete inputs: skipping the newest rule leaves the
conversion of "hello" to fall through to the str rule; a TypeError from a
matching rule propagates; to_openmath on the empty converter does not
produce CannotConvertError. -/
theorem C6_witness :
    (Converter.to_openmath cWithSkip (.str "hello")
      = Converter.to_openmath
          { cWithSkip with conv_to_om := [(some .str, .fn conv_str)] } (.str "hello"))
    ∧ (Converter.empty.register_to_openmath Option.none boomRule).to_openmath (.str "x")
        = Except.error (.typeError "boom")
    ∧ Converter.empty.to_openmath (.int 0) ≠ Except.error PyErr.cannotConvert :=
  ⟨C6_cannotconvert_skipped_other_errors_propagate.1 cWithSkip
      [(some .str, .fn conv_str)] [] Option.none skipRule (.str "hello") rfl rfl rfl,
   C6_cannotconvert_skipped_other_errors_propagate.2.1 Converter.empty
      Option.none boomRule (.str "x") (.typeError "boom") rfl rfl (by decide),
   C6_cannotconvert_skipped_other_errors_propagate.2.2 Converter.empty (.int 0)⟩

set_option smartUnfolding false in
/-- C7: the claim states that converting a range with step 2 fails with the
UnsupportedRange error (a ValueError).  The failing branch of do_range
builds its message by interpolating the name obj, which is not defined in
any enclosing scope, so the conversion actually fails with
NameError("obj") - the intended ValueError is never raised. -/
theorem C7_range_step2_raises_nameerror :
    DefaultConverter.to_openmath (.range 0 10 2) = Except.error (.nameError "obj")
    ∧ ∀ msg, DefaultConverter.to_openmath (.range 0 10 2)
        ≠ Except.error (.valueError msg) := by
  refine ⟨rfl, fun msg h => ?_⟩
  rw [show DefaultConverter.to_openmath (.range 0 10 2)
      = Except.error (.nameError "obj") from rfl] at h
  simp at h

set_option smartUnfolding false in
/-- C8: the claim states that a constant-node rule makes to_openmath return
that node.  The loop instead executes conv(obj) whether or not conv is
callable; the node classes of openmath.py define no call operator, so the
conversion raises TypeError (object is not callable) instead of returning
the constant, contradicting register_to_openmath's own documentation. -/
theorem C8_constant_rule_is_called_not_returned :
    (Converter.empty.register_to_openmath (some .int)
        (.const (.OMInteger 1 Option.none))).to_openmath (.int 5)
      = Except.error (.typeError "object is not callable") := rfl

/-- C9 counterexample: the claim states every constructed OMObject has
version "2.0".  The constructor only defaults an absent version to "2.0";
an explicit version "1.0" is stored unchanged. -/
theorem C9_counterexample_explicit_version_kept :
    omobjVersion (OMObject_init (.OMInteger 1 Option.none) (some "1.0")
        Option.none Option.none) = some "1.0"
    ∧ ("1.0" : String) ≠ "2.0" :=
  ⟨rfl, by decide⟩

/-- An OMOBJ element with version "1.7" and an OMSTR child. -/
def omobj17Root : XMLElement :=
  .mk (omTag "OMOBJ") [("version", "1.7")] Option.none
    (.cons (.mk (omTag "OMSTR") [] (some "x") .nil) .nil)

set_option smartUnfolding false in
/-- C9 amended: OMObject's version defaults to "2.0" exactly when no version
is given; an explicit version is kept as passed.  decode_xml likewise
accepts an OMOBJ element with any version attribute (only top-level stream
decoding rejects versions other than "2.0"). -/
theorem C9_version_default_and_decode :
    (∀ (omel : OMAny) (id cdbase : Option String),
      omobjVersion (OMObject_init omel Option.none id cdbase) = some "2.0")
    ∧ (∀ (omel : OMAny) (v : String) (id cdbase : Option String),
      omobjVersion (OMObject_init omel (some v) id cdbase) = some v)
    ∧ decode_xml omobj17Root false
        = Except.ok (.OMObject (.OMString (some "x") Option.none) "1.7"
            Option.none Option.none) :=
  ⟨fun _ _ _ => rfl, fun _ _ _ _ => rfl, rfl⟩

/-- C10: neither to_openmath nor to_python changes the converter state (the
three registries): with every registered callback modelled as a pure
function, the state threaded through a conversion - successful or failing -
comes back exactly as it went in; only the register methods build new
states. -/
theorem C10_conversions_preserve_registries :
    (∀ (c : Converter) (v : PyVal), (c.to_openmathSt v).2 = c)
    ∧ (∀ (c : Converter) (n : OMAny), (c.to_pythonSt n).2 = c) :=
  ⟨fun c v => toOMLoopSt_frame v c _, fun c n => to_pythonSt_frame c n⟩

end PyOM
